import Mathlib

/-
Shallow embedding of the PVL source engine (src/go/pvlsource/pvlsource.go).

Time values and durations are modelled as Int nanoseconds, matching the Go
time.Duration representation. External collaborators (filesystem, merkle
client, local db, API server, sha512 digest, JSON unmarshalling) are
parameters of an Env record: each field captures the observable behaviour of
one external call made by the engine. Effects performed by a call (merkle
refresh attempts, db reads, network fetches, scheduled db writes) are
tracked in an Effects record so that claims about what a call touches are
statable.
-/

namespace PvlSource

/-- tShouldRefresh = 1 * time.Hour in nanoseconds (pvlsource.go line 21). -/
def tShouldRefresh : Int := 3600000000000

/-- tRequireRefresh = 24 * time.Hour in nanoseconds (pvlsource.go line 25). -/
def tRequireRefresh : Int := 86400000000000

/-- dbVersion constant (pvlsource.go line 33). Bump to ignore existing cache entries. -/
def dbVersion : Int := 1

/-- entry: the cache record shape (pvlsource.go lines 35-39). -/
structure entry where
  DBVersion : Int
  Hash : String
  PvlKit : String
deriving DecidableEq, Repr

/-- A merkle root as observed by the engine: root.Fetched(), root.Seqno(),
root.PvlHash(). Seqno is a nullable pointer in the source, hence Option. -/
structure Root where
  fetched : Int
  seqno : Option Int
  pvlHash : String
deriving DecidableEq, Repr

/-- The merkle client collaborator: LastRoot(), and the outcome of a
refreshRoot attempt (an error, or the value LastRoot() returns afterwards). -/
structure MerkleClient where
  lastRoot : Option Root
  refresh : Except String (Option Root)

/-- pvlKitT: the parsed kit envelope (pvlsource.go lines 62-66). The Go
map[int]json.RawMessage is modelled as an association list. -/
structure pvlKitT where
  KitVersion : Int
  Ctime : Int
  Tab : List (Int × String)
deriving DecidableEq, Repr

/-- The environment of external collaborators for one call. -/
structure Env where
  pvlKitFilename : String
  fs : String → Except String String
  merkle : Option MerkleClient
  now : Int
  localDb : Option (Except String (Option entry))
  serverKitJSON : String → Except String String
  digest : String → String
  parseKit : String → Except String pvlKitT

/-- The error taxonomy: one constructor per NewPvlSourceError call site. -/
inductive PvlSourceError where
  | noMerkleClient
  | noMerkleRoot
  | merkleRootTooOld (seqno : Int) (fetched : Int)
  | emptyPvlHash (seqno : Int)
  | apiError (msg : String)
  | emptyPvl
  | wrongPvl
  | unmarshalKit (msg : String)
  | missingVersion (v : Int)
  | emptyVersion (v : Int)
  | readFileError (msg : String)
deriving DecidableEq, Repr

/-- Effects performed by one engine call: number of refreshRoot attempts,
number of local db reads, number of server fetches, and the entries handed
to the asynchronous dbSet write-back. -/
structure Effects where
  refreshCalls : Nat
  dbReads : Nat
  fetchCalls : Nat
  dbWrites : List entry
deriving DecidableEq, Repr

/-- The empty effect record. -/
def noEffects : Effects := ⟨0, 0, 0, []⟩

/-- seqnoWrap (pvlsource.go lines 319-324). -/
def seqnoWrap : Option Int → Int
  | none => 0
  | some x => x

/-- pastDue (pvlsource.go lines 305-312): strict comparison of the elapsed
time against the limit. -/
def pastDue (now event limit : Int) : Bool :=
  now - event > limit

/-- memGet (pvlsource.go lines 237-245). -/
def memGet (mem : Option entry) (hash : String) : Option String :=
  match mem with
  | some e => if e.Hash = hash then some e.PvlKit else none
  | none => none

/-- memSet (pvlsource.go lines 247-253): the new value of the s.mem slot. -/
def memSet (hash pvl : String) : Option entry :=
  some { DBVersion := dbVersion, Hash := hash, PvlKit := pvl }

/-- dbGet (pvlsource.go lines 256-277). The version gate is transcribed
exactly as written in the source: it compares ent.DBVersion with itself. -/
def dbGet (env : Env) (hash : String) : Option String :=
  match env.localDb with
  | none => none
  | some (Except.error _) => none
  | some (Except.ok none) => none
  | some (Except.ok (some ent)) =>
    if ent.DBVersion ≠ ent.DBVersion then none
    else if ent.Hash = hash then some ent.PvlKit
    else none

/-- dbGet with the comparison the spec requires (stored version against the
engine constant dbVersion), for contrast with the source transcription. -/
def dbGetSpeced (env : Env) (hash : String) : Option String :=
  match env.localDb with
  | none => none
  | some (Except.error _) => none
  | some (Except.ok none) => none
  | some (Except.ok (some ent)) =>
    if ent.DBVersion ≠ dbVersion then none
    else if ent.Hash = hash then some ent.PvlKit
    else none

/-- dbSet (pvlsource.go lines 281-296): the entry written to the fixed db key. -/
def dbSetEntry (hash pvl : String) : entry :=
  { DBVersion := dbVersion, Hash := hash, PvlKit := pvl }

/-- fetch (pvlsource.go lines 195-217): server call, empty-payload check,
digest check. env.digest stands for the sha512-hex hash function. -/
def fetch (env : Env) (hash : String) : Except PvlSourceError String :=
  match env.serverKitJSON hash with
  | Except.error e => Except.error (PvlSourceError.apiError e)
  | Except.ok kitJSON =>
    if kitJSON = "" then Except.error PvlSourceError.emptyPvl
    else if env.digest kitJSON ≠ hash then Except.error PvlSourceError.wrongPvl
    else Except.ok kitJSON

/-- readFile (pvlsource.go lines 314-317). -/
def readFile (env : Env) (path : String) : Except PvlSourceError String :=
  match env.fs path with
  | Except.ok contents => Except.ok contents
  | Except.error e => Except.error (PvlSourceError.readFileError e)

/-- The cache-and-fetch cascade of GetKitString (pvlsource.go lines 148-182):
memory slot first, then local db (populating memory on a hit), then the
server fetch (storing to memory and scheduling the asynchronous db write). -/
def kitCascade (env : Env) (mem : Option entry) (hash : String) :
    Except PvlSourceError String × Option entry × Effects :=
  match memGet mem hash with
  | some fromMem => (Except.ok fromMem, mem, noEffects)
  | none =>
    match dbGet env hash with
    | some fromDB =>
      (Except.ok fromDB, memSet hash fromDB,
        { refreshCalls := 0, dbReads := 1, fetchCalls := 0, dbWrites := [] })
    | none =>
      match fetch env hash with
      | Except.error e =>
        (Except.error e, mem,
          { refreshCalls := 0, dbReads := 1, fetchCalls := 1, dbWrites := [] })
      | Except.ok pvl =>
        (Except.ok pvl, memSet hash pvl,
          { refreshCalls := 0, dbReads := 1, fetchCalls := 1,
            dbWrites := [dbSetEntry hash pvl] })

/-- GetKitString (pvlsource.go lines 96-183): override file short-circuit,
merkle client lookup, refresh-if-stale, expiry gate, hash extraction, then
the cache cascade. Returns the result, the new memory slot, and the effects. -/
def GetKitString (env : Env) (mem : Option entry) :
    Except PvlSourceError String × Option entry × Effects :=
  if env.pvlKitFilename.length > 0 then
    (readFile env env.pvlKitFilename, mem, noEffects)
  else
    match env.merkle with
    | none => (Except.error PvlSourceError.noMerkleClient, mem, noEffects)
    | some mc =>
      let root0 := mc.lastRoot
      let should : Bool :=
        match root0 with
        | none => true
        | some r => pastDue env.now r.fetched tShouldRefresh
      let refreshed : Option Root × Nat :=
        if should then
          match mc.refresh with
          | Except.error _ => (root0, 1)
          | Except.ok r1 => (r1, 1)
        else (root0, 0)
      match refreshed with
      | (root1, rc) =>
        match root1 with
        | none =>
          (Except.error PvlSourceError.noMerkleRoot, mem,
            { noEffects with refreshCalls := rc })
        | some r =>
          if pastDue env.now r.fetched tRequireRefresh then
            (Except.error
              (PvlSourceError.merkleRootTooOld (seqnoWrap r.seqno) r.fetched),
              mem, { noEffects with refreshCalls := rc })
          else
            if r.pvlHash = "" then
              (Except.error (PvlSourceError.emptyPvlHash (seqnoWrap r.seqno)),
                mem, { noEffects with refreshCalls := rc })
            else
              match kitCascade env mem r.pvlHash with
              | (res, mem1, fx) => (res, mem1, { fx with refreshCalls := rc })

/-- Lookup in the kit table, modelling access to the Go map kit.Tab. -/
def lookupTab (tab : List (Int × String)) (v : Int) : Option String :=
  match tab with
  | [] => none
  | (k, s) :: rest => if k = v then some s else lookupTab rest v

/-- GetPVL (pvlsource.go lines 69-90): get the kit string, unmarshal it,
look up the requested version, reject empty entries. -/
def GetPVL (env : Env) (mem : Option entry) (pvlVersion : Int) :
    Except PvlSourceError String × Option entry × Effects :=
  match GetKitString env mem with
  | (Except.error e, mem1, fx) => (Except.error e, mem1, fx)
  | (Except.ok kitJSON, mem1, fx) =>
    match env.parseKit kitJSON with
    | Except.error e => (Except.error (PvlSourceError.unmarshalKit e), mem1, fx)
    | Except.ok kit =>
      match lookupTab kit.Tab pvlVersion with
      | none => (Except.error (PvlSourceError.missingVersion pvlVersion), mem1, fx)
      | some sub =>
        if sub.length = 0 then
          (Except.error (PvlSourceError.emptyVersion pvlVersion), mem1, fx)
        else (Except.ok sub, mem1, fx)

/-- Concrete environment for the db version-gate check: the stored entry has
DBVersion 2 while the engine constant is 1, and its hash matches the root. -/
def envC1 : Env :=
  { pvlKitFilename := ""
  , fs := fun _ => Except.error "no file"
  , merkle := some { lastRoot := some { fetched := 0, seqno := some 5, pvlHash := "h" }
                   , refresh := Except.error "offline" }
  , now := 0
  , localDb := some (Except.ok (some { DBVersion := 2, Hash := "h", PvlKit := "old-format-payload" }))
  , serverKitJSON := fun _ => Except.error "offline"
  , digest := fun s => s
  , parseKit := fun _ => Except.error "not json" }

/-- Concrete environment with an override file set and readable, and no
merkle client at all. -/
def envC5 : Env :=
  { pvlKitFilename := "kit-override.json"
  , fs := fun _ => Except.ok "arbitrary override text"
  , merkle := none
  , now := 0
  , localDb := none
  , serverKitJSON := fun _ => Except.error "offline"
  , digest := fun s => s
  , parseKit := fun _ => Except.error "not json" }

/-- Concrete environment with an override file set but unreadable, while a
fresh merkle root, a populated db and a working server are all available. -/
def envC10 : Env :=
  { pvlKitFilename := "kit-override.json"
  , fs := fun _ => Except.error "permission denied"
  , merkle := some { lastRoot := some { fetched := 0, seqno := some 5, pvlHash := "h" }
                   , refresh := Except.ok (some { fetched := 0, seqno := some 5, pvlHash := "h" }) }
  , now := 0
  , localDb := some (Except.ok (some { DBVersion := 1, Hash := "h", PvlKit := "kit" }))
  , serverKitJSON := fun _ => Except.ok "kit"
  , digest := fun _ => "h"
  , parseKit := fun _ => Except.error "not json" }

/-- A root fetched at time 0 with sequence number 11 and pvl hash h. -/
def rootC3 : Root := { fetched := 0, seqno := some 11, pvlHash := "h" }

/-- A merkle client whose refresh completes without error but leaves the
root unchanged. -/
def mcC3 : MerkleClient := { lastRoot := some rootC3, refresh := Except.ok (some rootC3) }

/-- Environment whose clock sits exactly 24 hours after the root was fetched. -/
def envC3 : Env :=
  { pvlKitFilename := ""
  , fs := fun _ => Except.error "no file"
  , merkle := some mcC3
  , now := tRequireRefresh
  , localDb := none
  , serverKitJSON := fun _ => Except.error "offline"
  , digest := fun s => s
  , parseKit := fun _ => Except.error "not json" }

/-- Environment whose clock sits 25 hours after the root was fetched. -/
def envC3w : Env :=
  { pvlKitFilename := ""
  , fs := fun _ => Except.error "no file"
  , merkle := some mcC3
  , now := tRequireRefresh + tShouldRefresh
  , localDb := none
  , serverKitJSON := fun _ => Except.error "offline"
  , digest := fun s => s
  , parseKit := fun _ => Except.error "not json" }

/-- A merkle client whose refresh attempt fails. -/
def mcC4 : MerkleClient := { lastRoot := some rootC3, refresh := Except.error "refresh failed" }

/-- Environment whose clock sits exactly 1 hour after the root was fetched,
with a failing refresh. -/
def envC4 : Env :=
  { pvlKitFilename := ""
  , fs := fun _ => Except.error "no file"
  , merkle := some mcC4
  , now := tShouldRefresh
  , localDb := none
  , serverKitJSON := fun _ => Except.error "offline"
  , digest := fun s => s
  , parseKit := fun _ => Except.error "not json" }

/-- Environment whose clock sits 2 hours after the root was fetched, with a
failing refresh. -/
def envC4w : Env :=
  { pvlKitFilename := ""
  , fs := fun _ => Except.error "no file"
  , merkle := some mcC4
  , now := tShouldRefresh + tShouldRefresh
  , localDb := none
  , serverKitJSON := fun _ => Except.error "offline"
  , digest := fun s => s
  , parseKit := fun _ => Except.error "not json" }

/-- A memory cache entry holding kit under hash h. -/
def memKit : entry := { DBVersion := 1, Hash := "h", PvlKit := "kit" }

/-- A fresh root (fetched at the current clock) with pvl hash h. -/
def rootC2 : Root := { fetched := 0, seqno := some 9, pvlHash := "h" }

/-- A merkle client holding the fresh root rootC2. -/
def mcC2 : MerkleClient := { lastRoot := some rootC2, refresh := Except.error "offline" }

/-- Environment with a fresh root, empty caches, and a server that returns a
payload whose digest does not match the requested hash. -/
def envC2 : Env :=
  { pvlKitFilename := ""
  , fs := fun _ => Except.error "no file"
  , merkle := some mcC2
  , now := 0
  , localDb := none
  , serverKitJSON := fun _ => Except.ok "tampered"
  , digest := fun _ => "not-h"
  , parseKit := fun _ => Except.error "not json" }

/-- Environment with a fresh root, an empty memory slot, and a db entry
under the requested hash. -/
def envC6 : Env :=
  { pvlKitFilename := ""
  , fs := fun _ => Except.error "no file"
  , merkle := some mcC2
  , now := 0
  , localDb := some (Except.ok (some { DBVersion := 1, Hash := "h", PvlKit := "kit" }))
  , serverKitJSON := fun _ => Except.error "offline"
  , digest := fun s => s
  , parseKit := fun _ => Except.error "not json" }

/-- A parsed kit whose table has an empty ruleset at version 3 and a
non-empty one at version 7. -/
def kitC8 : pvlKitT := { KitVersion := 1, Ctime := 0, Tab := [(3, ""), (7, "seven")] }

/-- Environment whose override file parses to kitC8. -/
def envC8 : Env :=
  { pvlKitFilename := "kit-override.json"
  , fs := fun _ => Except.ok "kitjson"
  , merkle := none
  , now := 0
  , localDb := none
  , serverKitJSON := fun _ => Except.error "offline"
  , digest := fun s => s
  , parseKit := fun _ => Except.ok kitC8 }

/-- C5: whenever the override path is non-empty, GetKitString is exactly
readFile of that path with the memory slot unchanged and no refresh, db,
fetch or write effect, for every environment — in particular when no merkle
client or root exists — and it returns the file contents verbatim when the
read succeeds. -/
theorem GetKitString_override (env : Env) (mem : Option entry)
    (hfile : env.pvlKitFilename.length > 0) :
    GetKitString env mem = (readFile env env.pvlKitFilename, mem, noEffects) ∧
    ∀ c, env.fs env.pvlKitFilename = Except.ok c →
      (GetKitString env mem).1 = Except.ok c := by
  constructor
  · simp [GetKitString, hfile]
  · intro c hc
    simp [GetKitString, hfile, readFile, hc]

/-- Witness for GetKitString_override: the override text is returned even
though envC5 has no merkle client. -/
theorem GetKitString_override_witness :
    (GetKitString envC5 none).1 = Except.ok "arbitrary override text" :=
  (GetKitString_override envC5 none (by decide)).2 "arbitrary override text" rfl

/-- C10: when the override path is set but the file read fails, GetKitString
propagates the read error, leaves the memory slot unchanged, and performs no
refresh, db read, fetch or db write. -/
theorem GetKitString_override_error (env : Env) (mem : Option entry) (msg : String)
    (hfile : env.pvlKitFilename.length > 0)
    (herr : env.fs env.pvlKitFilename = Except.error msg) :
    GetKitString env mem =
      (Except.error (PvlSourceError.readFileError msg), mem, noEffects) := by
  simp [GetKitString, hfile, readFile, herr]

/-- Witness for GetKitString_override_error at envC10, where the anchor, db
and server would all have succeeded. -/
theorem GetKitString_override_error_witness :
    GetKitString envC10 none =
      (Except.error (PvlSourceError.readFileError "permission denied"), none, noEffects) :=
  GetKitString_override_error envC10 none "permission denied" (by decide) rfl

/-- C7: memory-tier round trip: after memSet h p, memGet h returns p and
memGet of a different hash returns none; after a later memSet of a
different hash, memGet h returns none. -/
theorem memSet_memGet_roundtrip (h p h2 : String) (hne : h2 ≠ h) :
    memGet (memSet h p) h = some p ∧
    memGet (memSet h p) h2 = none ∧
    ∀ p2, memGet (memSet h2 p2) h = none := by
  refine ⟨by simp [memGet, memSet], ?_, ?_⟩
  · simp [memGet, memSet]
    intro hh
    exact absurd hh.symm hne
  · intro p2
    simp [memGet, memSet]
    intro hh
    exact absurd hh hne

/-- Witness for memSet_memGet_roundtrip at h = a, p = x, h2 = b. -/
theorem memSet_memGet_roundtrip_witness :
    memGet (memSet "a" "x") "a" = some "x" ∧
    memGet (memSet "a" "x") "b" = none ∧
    ∀ p2, memGet (memSet "b" p2) "a" = none :=
  memSet_memGet_roundtrip "a" "x" "b" (by decide)

/-- C1 (code bug, pvlsource.go line 270): the db version gate compares the
stored DBVersion with itself, so dbGet serves an entry whose DBVersion (2)
differs from the engine constant dbVersion (1), and GetKitString returns its
payload; the spec-corrected comparison dbGetSpeced treats it as a miss. -/
theorem dbGet_version_gate_ineffective :
    (2 : Int) ≠ dbVersion ∧
    dbGet envC1 "h" = some "old-format-payload" ∧
    dbGetSpeced envC1 "h" = none ∧
    (GetKitString envC1 none).1 = Except.ok "old-format-payload" := by
  refine ⟨by decide, by decide, by decide, rfl⟩

/-- fetch never produces the merkleRootTooOld error. -/
theorem fetch_no_tooOld (env : Env) (h : String) (sq f : Int) :
    fetch env h ≠ Except.error (PvlSourceError.merkleRootTooOld sq f) := by
  unfold fetch
  cases hs : env.serverKitJSON h with
  | error e => simp
  | ok k =>
    by_cases hk : k = ""
    · simp [hk]
    · by_cases hd : env.digest k = h
      · simp [hk, hd]
      · simp [hk, hd]

/-- The cache cascade never produces the merkleRootTooOld error. -/
theorem kitCascade_no_tooOld (env : Env) (mem : Option entry) (h : String)
    (sq f : Int) :
    (kitCascade env mem h).1 ≠ Except.error (PvlSourceError.merkleRootTooOld sq f) := by
  unfold kitCascade
  cases hm : memGet mem h with
  | some v => simp
  | none =>
    cases hd : dbGet env h with
    | some v => simp
    | none =>
      cases hf : fetch env h with
      | error e =>
        simp only []
        intro hcontra
        apply fetch_no_tooOld env h sq f
        rw [hf]
        injection hcontra with h1
        rw [h1]
      | ok pvl => simp

/-- C3 (amended): with a root present and a refresh that completes without
error but leaves the root unchanged, GetKitString fails with the
merkleRootTooOld error exactly when the age of the root strictly exceeds 24
hours; at any age up to and including 24 hours it never produces that error. -/
theorem GetKitString_expiry_gate (env : Env) (mem : Option entry)
    (mc : MerkleClient) (r : Root)
    (hfile : env.pvlKitFilename = "")
    (hmc : env.merkle = some mc)
    (hroot : mc.lastRoot = some r)
    (hrefresh : mc.refresh = Except.ok (some r)) :
    (tRequireRefresh < env.now - r.fetched →
      (GetKitString env mem).1 =
        Except.error (PvlSourceError.merkleRootTooOld (seqnoWrap r.seqno) r.fetched)) ∧
    (env.now - r.fetched ≤ tRequireRefresh →
      ∀ sq f, (GetKitString env mem).1 ≠
        Except.error (PvlSourceError.merkleRootTooOld sq f)) := by
  have hlen : ¬ env.pvlKitFilename.length > 0 := by
    rw [hfile]
    decide
  constructor
  · intro hexp
    have hpast : pastDue env.now r.fetched tRequireRefresh = true := by
      simp [pastDue]
      omega
    cases hshould : pastDue env.now r.fetched tShouldRefresh with
    | true => simp [GetKitString, hlen, hmc, hroot, hrefresh, hshould, hpast]
    | false => simp [GetKitString, hlen, hmc, hroot, hrefresh, hshould, hpast]
  · intro hok sq f
    have hpast : pastDue env.now r.fetched tRequireRefresh = false := by
      simp [pastDue]
      omega
    by_cases hh : r.pvlHash = ""
    · cases hshould : pastDue env.now r.fetched tShouldRefresh with
      | true => simp [GetKitString, hlen, hmc, hroot, hrefresh, hshould, hpast, hh]
      | false => simp [GetKitString, hlen, hmc, hroot, hrefresh, hshould, hpast, hh]
    · have hcasc := kitCascade_no_tooOld env mem r.pvlHash sq f
      cases hkc : kitCascade env mem r.pvlHash with
      | mk res rest =>
        cases rest with
        | mk mem1 fx =>
          cases hshould : pastDue env.now r.fetched tShouldRefresh with
          | true =>
            simp [GetKitString, hlen, hmc, hroot, hrefresh, hshould, hpast, hh, hkc]
            rw [hkc] at hcasc
            exact fun hx => hcasc (by rw [hx])
          | false =>
            simp [GetKitString, hlen, hmc, hroot, hrefresh, hshould, hpast, hh, hkc]
            rw [hkc] at hcasc
            exact fun hx => hcasc (by rw [hx])

/-- Witness for GetKitString_expiry_gate: at age 25 hours the call fails
with merkleRootTooOld carrying the sequence number and fetch time. -/
theorem GetKitString_expiry_gate_witness :
    (GetKitString envC3w none).1 =
      Except.error (PvlSourceError.merkleRootTooOld 11 0) :=
  (GetKitString_expiry_gate envC3w none mcC3 rootC3 rfl rfl rfl rfl).1 (by decide)

/-- C3 (counterexample to the claim as stated): with the root age exactly 24
hours — hence at least 24 hours — and a refresh that completes without error
but leaves the root unchanged, GetKitString succeeds from the memory cache
instead of failing with the StaleAnchor error. -/
theorem GetKitString_age_exactly_24h_succeeds :
    envC3.now - rootC3.fetched = tRequireRefresh ∧
    GetKitString envC3 (some memKit) =
      (Except.ok "kit", some memKit,
        { refreshCalls := 1, dbReads := 0, fetchCalls := 0, dbWrites := [] }) :=
  ⟨by decide, rfl⟩

/-- With the override unset and a root that is old enough to trigger the
refresh gate, GetKitString records exactly one refresh attempt, whatever the
refresh outcome and whatever happens afterwards. -/
theorem refreshCalls_one (env : Env) (mem : Option entry)
    (mc : MerkleClient) (r : Root)
    (hfile : env.pvlKitFilename = "")
    (hmc : env.merkle = some mc)
    (hroot : mc.lastRoot = some r)
    (hstale : pastDue env.now r.fetched tShouldRefresh = true) :
    (GetKitString env mem).2.2.refreshCalls = 1 := by
  have hlen : ¬ env.pvlKitFilename.length > 0 := by
    rw [hfile]
    decide
  unfold GetKitString
  rw [if_neg hlen, hmc]
  cases mc with
  | mk lr rf =>
    simp at hroot
    subst hroot
    cases rf with
    | error msg =>
      by_cases h1 : pastDue env.now r.fetched tRequireRefresh = true
      · simp [hstale, h1]
      · by_cases h2 : r.pvlHash = ""
        · simp [hstale, h1, h2]
        · simp [hstale, h1, h2]
    | ok r1 =>
      cases r1 with
      | none => simp [hstale]
      | some r2 =>
        by_cases h1 : pastDue env.now r2.fetched tRequireRefresh = true
        · simp [hstale, h1]
        · by_cases h2 : r2.pvlHash = ""
          · simp [hstale, h1, h2]
          · simp [hstale, h1, h2]

/-- C4 (amended): when the root age strictly exceeds 1 hour, GetKitString
performs exactly one refresh attempt; when moreover the age is at most 24
hours, the refresh attempt fails and the pvl hash is non-empty, the failure
is non-fatal and the call proceeds with the stale root: its outcome is
exactly the cache-or-fetch cascade on the stale root's hash. -/
theorem GetKitString_staleable_refresh (env : Env) (mem : Option entry)
    (mc : MerkleClient) (r : Root)
    (hfile : env.pvlKitFilename = "")
    (hmc : env.merkle = some mc)
    (hroot : mc.lastRoot = some r)
    (hstale : tShouldRefresh < env.now - r.fetched) :
    (GetKitString env mem).2.2.refreshCalls = 1 ∧
    (env.now - r.fetched ≤ tRequireRefresh →
      ∀ msg, mc.refresh = Except.error msg → r.pvlHash ≠ "" →
      GetKitString env mem =
        ((kitCascade env mem r.pvlHash).1, (kitCascade env mem r.pvlHash).2.1,
          { (kitCascade env mem r.pvlHash).2.2 with refreshCalls := 1 })) := by
  have hlen : ¬ env.pvlKitFilename.length > 0 := by
    rw [hfile]
    decide
  have hshould : pastDue env.now r.fetched tShouldRefresh = true := by
    simp [pastDue]
    omega
  constructor
  · exact refreshCalls_one env mem mc r hfile hmc hroot hshould
  · intro hnotexp msg hrefresh hhash
    have hpast : pastDue env.now r.fetched tRequireRefresh = false := by
      simp [pastDue]
      omega
    cases hkc : kitCascade env mem r.pvlHash with
    | mk res rest =>
      cases rest with
      | mk mem1 fx =>
        simp [GetKitString, hlen, hmc, hroot, hrefresh, hshould, hpast, hhash, hkc]

/-- Witness for GetKitString_staleable_refresh: at age 2 hours with a
failing refresh, the call succeeds from the memory cache and records exactly
one refresh attempt. -/
theorem GetKitString_staleable_refresh_witness :
    GetKitString envC4w (some memKit) =
      (Except.ok "kit", some memKit,
        { refreshCalls := 1, dbReads := 0, fetchCalls := 0, dbWrites := [] }) :=
  Eq.trans
    ((GetKitString_staleable_refresh envC4w (some memKit) mcC4 rootC3
        rfl rfl rfl (by decide)).2
      (by decide) "refresh failed" rfl (by decide))
    rfl

/-- C4 (counterexample to the claim as stated): with the root age exactly 1
hour — inside the staleable window [1h, 24h) of the claim — GetKitString
performs zero refresh attempts rather than exactly one. -/
theorem GetKitString_age_exactly_1h_no_refresh :
    envC4.now - rootC3.fetched = tShouldRefresh ∧
    (GetKitString envC4 (some memKit)).2.2.refreshCalls = 0 :=
  ⟨by decide, by decide⟩

/-- A successful fetch implies the server returned exactly that payload, it
is non-empty, and its digest equals the requested hash. -/
theorem fetch_ok_elim (env : Env) (h v : String)
    (hf : fetch env h = Except.ok v) :
    env.serverKitJSON h = Except.ok v ∧ v ≠ "" ∧ env.digest v = h := by
  unfold fetch at hf
  cases hs : env.serverKitJSON h with
  | error e => simp [hs] at hf
  | ok k =>
    simp only [hs] at hf
    split_ifs at hf with hk hd
    injection hf with he
    subst he
    push_neg at hd
    exact ⟨rfl, hk, hd⟩

/-- A non-empty payload whose digest matches the requested hash is returned
by fetch when the server supplies it. -/
theorem fetch_ok_intro (env : Env) (h v : String)
    (hs : env.serverKitJSON h = Except.ok v) (hv : v ≠ "")
    (hd : env.digest v = h) :
    fetch env h = Except.ok v := by
  unfold fetch
  simp only [hs]
  rw [if_neg hv, if_neg (fun hx => hx hd)]

/-- With the override unset, a merkle client holding a fresh root (age at
most 1 hour) and a non-empty pvl hash, GetKitString performs no refresh and
reduces to the cache-or-fetch cascade on that hash. -/
theorem GetKitString_fresh_cascade (env : Env) (mem : Option entry)
    (mc : MerkleClient) (r : Root)
    (hfile : env.pvlKitFilename = "")
    (hmc : env.merkle = some mc)
    (hroot : mc.lastRoot = some r)
    (hfresh : pastDue env.now r.fetched tShouldRefresh = false)
    (hhash : r.pvlHash ≠ "") :
    GetKitString env mem =
      ((kitCascade env mem r.pvlHash).1, (kitCascade env mem r.pvlHash).2.1,
        { (kitCascade env mem r.pvlHash).2.2 with refreshCalls := 0 }) := by
  have hlen : ¬ env.pvlKitFilename.length > 0 := by
    rw [hfile]
    decide
  have hlim : tShouldRefresh < tRequireRefresh := by decide
  have hfresh2 : ¬ tShouldRefresh < env.now - r.fetched := by
    simpa [pastDue] using hfresh
  have hpast : pastDue env.now r.fetched tRequireRefresh = false := by
    simp [pastDue]
    omega
  cases hkc : kitCascade env mem r.pvlHash with
  | mk res rest =>
    cases rest with
    | mk mem1 fx =>
      simp [GetKitString, hlen, hmc, hroot, hfresh, hpast, hhash, hkc]

/-- C2: on the fresh-root path with both cache tiers missing, an empty or
digest-mismatched server payload makes fetch fail and GetKitString return
that error with the memory slot unchanged and no scheduled db write; and any
payload GetKitString returns from the fetch path is non-empty, has digest
equal to the requested hash, and is exactly what is stored to memory and
scheduled for the db. -/
theorem fetch_integrity (env : Env) (mem : Option entry)
    (mc : MerkleClient) (r : Root)
    (hfile : env.pvlKitFilename = "")
    (hmc : env.merkle = some mc)
    (hroot : mc.lastRoot = some r)
    (hfresh : pastDue env.now r.fetched tShouldRefresh = false)
    (hhash : r.pvlHash ≠ "")
    (hmem : memGet mem r.pvlHash = none)
    (hdb : dbGet env r.pvlHash = none) :
    (∀ p, env.serverKitJSON r.pvlHash = Except.ok p →
      p = "" ∨ env.digest p ≠ r.pvlHash →
      ∃ e, fetch env r.pvlHash = Except.error e ∧
        GetKitString env mem =
          (Except.error e, mem,
            { refreshCalls := 0, dbReads := 1, fetchCalls := 1, dbWrites := [] })) ∧
    (∀ v, (GetKitString env mem).1 = Except.ok v →
      v ≠ "" ∧ env.digest v = r.pvlHash ∧
      GetKitString env mem =
        (Except.ok v, memSet r.pvlHash v,
          { refreshCalls := 0, dbReads := 1, fetchCalls := 1,
            dbWrites := [dbSetEntry r.pvlHash v] })) := by
  have hred := GetKitString_fresh_cascade env mem mc r hfile hmc hroot hfresh hhash
  constructor
  · intro p hp hbad
    have hferr : ∃ e, fetch env r.pvlHash = Except.error e := by
      unfold fetch
      simp only [hp]
      by_cases hp0 : p = ""
      · exact ⟨PvlSourceError.emptyPvl, by rw [if_pos hp0]⟩
      · have hdg : env.digest p ≠ r.pvlHash := by
          cases hbad with
          | inl h0 => exact absurd h0 hp0
          | inr h1 => exact h1
        exact ⟨PvlSourceError.wrongPvl, by rw [if_neg hp0, if_pos hdg]⟩
    obtain ⟨e, he⟩ := hferr
    refine ⟨e, he, ?_⟩
    rw [hred]
    unfold kitCascade
    simp [hmem, hdb, he]
  · intro v hv
    rw [hred] at hv
    simp only [] at hv
    cases hf : fetch env r.pvlHash with
    | error e =>
      unfold kitCascade at hv
      simp [hmem, hdb, hf] at hv
    | ok pvl =>
      unfold kitCascade at hv
      simp [hmem, hdb, hf] at hv
      subst hv
      obtain ⟨hs, hnv, hdg⟩ := fetch_ok_elim env r.pvlHash pvl hf
      refine ⟨hnv, hdg, ?_⟩
      rw [hred]
      unfold kitCascade
      simp [hmem, hdb, hf]

/-- Witness for fetch_integrity: a tampered server payload is rejected and
nothing is cached. -/
theorem fetch_integrity_witness :
    ∃ e, fetch envC2 "h" = Except.error e ∧
      GetKitString envC2 none =
        (Except.error e, none,
          { refreshCalls := 0, dbReads := 1, fetchCalls := 1, dbWrites := [] }) :=
  (fetch_integrity envC2 none mcC2 rootC2 rfl rfl rfl (by decide) (by decide) rfl rfl).1
    "tampered" rfl (Or.inr (by decide))

/-- C6: the cascade consults the memory slot first (a hit touches neither
the db nor the network and schedules no write), reads the db only on a
memory miss (a store hit returns the stored payload, populates the memory
slot, and performs no fetch — in particular the digest function, which is
used only inside fetch, is never applied), and issues exactly one remote
fetch only when both tiers miss. -/
theorem kitCascade_tier_order (env : Env) (mem : Option entry) (hash : String) :
    (∀ v, memGet mem hash = some v →
      kitCascade env mem hash = (Except.ok v, mem, noEffects)) ∧
    (memGet mem hash = none → ∀ v, dbGet env hash = some v →
      kitCascade env mem hash =
        (Except.ok v, memSet hash v,
          { refreshCalls := 0, dbReads := 1, fetchCalls := 0, dbWrites := [] })) ∧
    (memGet mem hash = none → dbGet env hash = none →
      (kitCascade env mem hash).2.2.fetchCalls = 1 ∧
      (kitCascade env mem hash).2.2.dbReads = 1) := by
  refine ⟨?_, ?_, ?_⟩
  · intro v hm
    unfold kitCascade
    simp [hm]
  · intro hm v hd
    unfold kitCascade
    simp [hm, hd]
  · intro hm hd
    unfold kitCascade
    cases hf : fetch env hash with
    | error e => simp [hm, hd, hf]
    | ok pvl => simp [hm, hd, hf]

/-- Witness for kitCascade_tier_order: a db hit on a memory miss returns the
stored payload, populates the memory slot, and issues no fetch. -/
theorem kitCascade_tier_order_witness :
    kitCascade envC6 none "h" =
      (Except.ok "kit", memSet "h" "kit",
        { refreshCalls := 0, dbReads := 1, fetchCalls := 0, dbWrites := [] }) :=
  (kitCascade_tier_order envC6 none "h").2.1 rfl "kit" (by decide)

/-- C8: once GetKitString succeeds, GetPVL fails with the unmarshalKit error
on a structural parse failure, with missingVersion when the parsed table has
no entry for the requested version, with emptyVersion when the entry exists
but is zero-length, and otherwise returns exactly the stored ruleset bytes. -/
theorem GetPVL_lookup (env : Env) (mem : Option entry) (v : Int) (kitJSON : String)
    (hkit : (GetKitString env mem).1 = Except.ok kitJSON) :
    (∀ msg, env.parseKit kitJSON = Except.error msg →
      (GetPVL env mem v).1 = Except.error (PvlSourceError.unmarshalKit msg)) ∧
    (∀ kit, env.parseKit kitJSON = Except.ok kit →
      (lookupTab kit.Tab v = none →
        (GetPVL env mem v).1 = Except.error (PvlSourceError.missingVersion v)) ∧
      (∀ sub, lookupTab kit.Tab v = some sub → sub.length = 0 →
        (GetPVL env mem v).1 = Except.error (PvlSourceError.emptyVersion v)) ∧
      (∀ sub, lookupTab kit.Tab v = some sub → sub.length ≠ 0 →
        (GetPVL env mem v).1 = Except.ok sub)) := by
  cases hks : GetKitString env mem with
  | mk res rest =>
    rw [hks] at hkit
    simp at hkit
    subst hkit
    cases rest with
    | mk mem1 fx =>
      constructor
      · intro msg hp
        unfold GetPVL
        simp [hks, hp]
      · intro kit hp
        refine ⟨?_, ?_, ?_⟩
        · intro hl
          unfold GetPVL
          simp [hks, hp, hl]
        · intro sub hl hlen
          unfold GetPVL
          simp [hks, hp, hl, hlen]
        · intro sub hl hlen
          unfold GetPVL
          simp [hks, hp, hl, hlen]

/-- Witness for GetPVL_lookup on kitC8: version 5 is missing, version 3 is
empty, version 7 returns its ruleset bytes. -/
theorem GetPVL_lookup_witness :
    (GetPVL envC8 none 5).1 = Except.error (PvlSourceError.missingVersion 5) ∧
    (GetPVL envC8 none 3).1 = Except.error (PvlSourceError.emptyVersion 3) ∧
    (GetPVL envC8 none 7).1 = Except.ok "seven" :=
  ⟨((GetPVL_lookup envC8 none 5 "kitjson" rfl).2 kitC8 rfl).1 (by decide),
   ((GetPVL_lookup envC8 none 3 "kitjson" rfl).2 kitC8 rfl).2.1 "" (by decide) (by decide),
   ((GetPVL_lookup envC8 none 7 "kitjson" rfl).2 kitC8 rfl).2.2 "seven" (by decide) (by decide)⟩

/-- The cascade either leaves the memory slot unchanged or overwrites it
with an entry carrying dbVersion, the requested hash and the returned
payload; every scheduled db write has that shape with a digest-verified
payload; a populated slot stays populated. -/
theorem kitCascade_writes (env : Env) (mem : Option entry) (hash : String) :
    ((kitCascade env mem hash).2.1 = mem ∨
      ∃ v, (kitCascade env mem hash).1 = Except.ok v ∧
        (kitCascade env mem hash).2.1 =
          some { DBVersion := dbVersion, Hash := hash, PvlKit := v }) ∧
    (∀ e, e ∈ (kitCascade env mem hash).2.2.dbWrites →
      e.DBVersion = dbVersion ∧ e.Hash = hash ∧ env.digest e.PvlKit = hash ∧
      (kitCascade env mem hash).1 = Except.ok e.PvlKit) ∧
    (mem ≠ none → (kitCascade env mem hash).2.1 ≠ none) := by
  unfold kitCascade
  cases hm : memGet mem hash with
  | some v =>
    refine ⟨Or.inl rfl, ?_, ?_⟩
    · intro e he
      simp [noEffects] at he
    · intro h0
      simpa using h0
  | none =>
    cases hd : dbGet env hash with
    | some v =>
      refine ⟨Or.inr ⟨v, rfl, rfl⟩, ?_, ?_⟩
      · intro e he
        simp at he
      · intro h0
        simp [memSet]
    | none =>
      cases hf : fetch env hash with
      | error e0 =>
        refine ⟨Or.inl rfl, ?_, ?_⟩
        · intro e he
          simp at he
        · intro h0
          simpa using h0
      | ok pvl =>
        obtain ⟨hs, hnv, hdg⟩ := fetch_ok_elim env hash pvl hf
        refine ⟨Or.inr ⟨pvl, rfl, rfl⟩, ?_, ?_⟩
        · intro e he
          simp [dbSetEntry] at he
          subst he
          exact ⟨rfl, rfl, hdg, rfl⟩
        · intro h0
          simp [memSet]

/-- GetKitString never resets a populated memory slot to none. -/
theorem getKit_mem_not_reset (env : Env) (mem : Option entry)
    (hm : mem ≠ none) : (GetKitString env mem).2.1 ≠ none := by
  unfold GetKitString
  split
  · simpa using hm
  · split
    · simpa using hm
    · rename_i mc _
      cases mc with
      | mk lr rf =>
        cases lr with
        | none =>
          cases rf with
          | error msg => simpa using hm
          | ok r1 =>
            cases r1 with
            | none => simpa using hm
            | some r =>
              by_cases h1 : pastDue env.now r.fetched tRequireRefresh = true
              · simpa [h1] using hm
              · by_cases h2 : r.pvlHash = ""
                · simpa [h1, h2] using hm
                · simpa [h1, h2] using (kitCascade_writes env mem r.pvlHash).2.2 hm
        | some r0 =>
          by_cases hshould : pastDue env.now r0.fetched tShouldRefresh = true
          · cases rf with
            | error msg =>
              by_cases h1 : pastDue env.now r0.fetched tRequireRefresh = true
              · simpa [hshould, h1] using hm
              · by_cases h2 : r0.pvlHash = ""
                · simpa [hshould, h1, h2] using hm
                · simpa [hshould, h1, h2] using
                    (kitCascade_writes env mem r0.pvlHash).2.2 hm
            | ok r1 =>
              cases r1 with
              | none => simpa [hshould] using hm
              | some r =>
                by_cases h1 : pastDue env.now r.fetched tRequireRefresh = true
                · simpa [hshould, h1] using hm
                · by_cases h2 : r.pvlHash = ""
                  · simpa [hshould, h1, h2] using hm
                  · simpa [hshould, h1, h2] using
                      (kitCascade_writes env mem r.pvlHash).2.2 hm
          · by_cases h1 : pastDue env.now r0.fetched tRequireRefresh = true
            · simpa [hshould, h1] using hm
            · by_cases h2 : r0.pvlHash = ""
              · simpa [hshould, h1, h2] using hm
              · simpa [hshould, h1, h2] using
                  (kitCascade_writes env mem r0.pvlHash).2.2 hm

/-- C9: every entry written by the engine — the memory slot via memSet and
the db write-back entry via dbSetEntry — has DBVersion equal to the engine
constant and Hash equal to the requested hash of the payload it stores; the
cascade never writes anything else, its db writes are digest-verified, and
a populated memory slot is replaced but never reset to none, both by the
cascade and by GetKitString as a whole. -/
theorem cache_write_invariant (env : Env) (mem : Option entry) (hash : String) :
    ((kitCascade env mem hash).2.1 = mem ∨
      ∃ v, (kitCascade env mem hash).1 = Except.ok v ∧
        (kitCascade env mem hash).2.1 =
          some { DBVersion := dbVersion, Hash := hash, PvlKit := v }) ∧
    (∀ e, e ∈ (kitCascade env mem hash).2.2.dbWrites →
      e.DBVersion = dbVersion ∧ e.Hash = hash ∧ env.digest e.PvlKit = hash ∧
      (kitCascade env mem hash).1 = Except.ok e.PvlKit) ∧
    (∀ h p, memSet h p = some { DBVersion := dbVersion, Hash := h, PvlKit := p }) ∧
    (∀ h p, dbSetEntry h p = { DBVersion := dbVersion, Hash := h, PvlKit := p }) ∧
    (mem ≠ none → (kitCascade env mem hash).2.1 ≠ none) ∧
    (mem ≠ none → (GetKitString env mem).2.1 ≠ none) :=
  ⟨(kitCascade_writes env mem hash).1,
   (kitCascade_writes env mem hash).2.1,
   fun _ _ => rfl,
   fun _ _ => rfl,
   (kitCascade_writes env mem hash).2.2,
   getKit_mem_not_reset env mem⟩

/-- Witness for cache_write_invariant: the memSet shape at concrete
arguments, and a populated slot surviving a GetKitString call. -/
theorem cache_write_invariant_witness :
    memSet "a" "p" = some { DBVersion := dbVersion, Hash := "a", PvlKit := "p" } ∧
    (GetKitString envC6 (some memKit)).2.1 ≠ none :=
  ⟨(cache_write_invariant envC6 (some memKit) "h").2.2.1 "a" "p",
   (cache_write_invariant envC6 (some memKit) "h").2.2.2.2.2 (by decide)⟩

end PvlSource
